import Mathlib

/-!
# Verification of the presentation-lifecycle state machine of `simple-wgpu-template`

Shallow embedding of `src/main.rs`. The program owns a window, a wgpu
swapchain described by a `SwapChainDescriptor`, and drives a winit event
loop. Platform effects that are external to the repository (the window's
physical size reported by winit, and the result of
`SwapChain::get_current_frame` reported by wgpu) are modelled as explicit
inputs (oracles) to the embedded functions; everything else follows the
Rust source line by line.

The `panic!("Out of memory!")` on `SwapChainError::OutOfMemory` is modelled
as `render` producing `result = none` (no normal `RenderResult`); the spec
calls this abnormal-termination path the `Fatal` frame outcome.
-/

namespace WgpuTemplate

/-- winit `PhysicalSize<u32>`; sizes are non-negative machine integers. -/
structure PhysicalSize where
  width : Nat
  height : Nat
deriving DecidableEq, Repr

/-- The winit window, reduced to the one piece of state the program reads:
its current physical inner size (`window.inner_size()`). -/
structure Window where
  inner_size : PhysicalSize
deriving DecidableEq, Repr

/-- wgpu `PresentMode` (the source selects `Fifo`). -/
inductive PresentMode
  | Immediate
  | Mailbox
  | Fifo
deriving DecidableEq, Repr

/-- wgpu `TextureFormat` is a large open enumeration; modelled as an
abstract numeric code (the program treats it opaquely: whatever
`get_swap_chain_preferred_format` returned). -/
abbrev TextureFormat := Nat

/-- wgpu `TextureUsage` bit flags, as a machine word. -/
abbrev TextureUsage := Nat

/-- `TextureUsage::RENDER_ATTACHMENT` (bit 4 in wgpu 0.7). -/
def RENDER_ATTACHMENT : TextureUsage := 16

/-- `wgpu::SwapChainDescriptor`: the fields the source constructs at
`RenderState::new` and mutates in `create_swapchain`. -/
structure SwapChainDescriptor where
  usage : TextureUsage
  format : TextureFormat
  width : Nat
  height : Nat
  present_mode : PresentMode
deriving DecidableEq, Repr

/-- The live presentation target. `device.create_swap_chain(surface,
descriptor)` builds a swapchain from the descriptor's current contents, so
the target is modelled as the snapshot of the descriptor it was built
from. -/
structure SwapChain where
  descriptor : SwapChainDescriptor
deriving DecidableEq, Repr

/-- GPU commands recorded into a command encoder. The only command the
program ever records is opening (and, by dropping, closing) one render
pass. -/
inductive Command
  | beginRenderPass
deriving DecidableEq, Repr

/-- `wgpu::CommandEncoder`: an ordered record of commands. -/
structure CommandEncoder where
  commands : List Command
deriving DecidableEq, Repr

/-- The device queue, observed through its submission history:
`queue.submit` appends one finished command buffer. -/
structure Queue where
  submitted : List (List Command)
deriving DecidableEq, Repr

/-- `RenderState` from the source. The `instance`, `surface` and `device`
fields are opaque platform handles that carry no state observable by the
program and are omitted from the model; `window`, `queue`,
`swapchain_descriptor` and `swapchain` are kept. -/
structure RenderState where
  window : Window
  queue : Queue
  swapchain_descriptor : SwapChainDescriptor
  swapchain : SwapChain
deriving DecidableEq, Repr

/-- `Scene`: an empty placeholder struct, passed through untouched. -/
structure Scene where
deriving DecidableEq, Repr

/-- `wgpu::SwapChainError`, the error side of `get_current_frame`. -/
inductive SwapChainError
  | Timeout
  | Outdated
  | Lost
  | OutOfMemory
deriving DecidableEq, Repr

/-- `frame.output.view` target of the render pass; opaque here. -/
structure FrameOutput where
  view : Unit
deriving DecidableEq, Repr

/-- `wgpu::SwapChainFrame`, a successfully acquired frame. -/
structure SwapChainFrame where
  output : FrameOutput
deriving DecidableEq, Repr

/-- `RenderResult` from the source: the three normal returns of `render`. -/
inductive RenderResult
  | Ok
  | RecreateSwapchain
  | TimedOut
deriving DecidableEq, Repr

/-- The platform result of one `get_current_frame` call, supplied as an
oracle: wgpu returns `Result<SwapChainFrame, SwapChainError>`. -/
abbrev AcqResult := Except SwapChainError SwapChainFrame

/-- `create_swapchain` from the source: reads `window.inner_size()`,
writes it into the descriptor's `width`/`height`, and builds a swapchain
from the (mutated) descriptor. Returns the mutated descriptor together
with the new swapchain, mirroring the Rust `&mut` out-parameter. -/
def create_swapchain (descriptor : SwapChainDescriptor) (window : Window) :
    SwapChainDescriptor × SwapChain :=
  let window_size := window.inner_size
  let descriptor :=
    { descriptor with width := window_size.width, height := window_size.height }
  (descriptor, { descriptor := descriptor })

/-- `RenderState::recreate_swapchain`: replaces the swapchain (and, through
`create_swapchain`, the descriptor's width/height) in place. -/
def RenderState.recreate_swapchain (s : RenderState) : RenderState :=
  let r := create_swapchain s.swapchain_descriptor s.window
  { s with swapchain_descriptor := r.1, swapchain := r.2 }

/-- The platform resize effect: winit updates the window's physical size;
the program itself never writes it. -/
def set_window_size (s : RenderState) (size : PhysicalSize) : RenderState :=
  { s with window := { inner_size := size } }

/-- `render_colored_background`: records exactly one render pass (begun by
`begin_render_pass` and closed when the pass is dropped at the end of the
function). The clear color is a time-based interpolation irrelevant to
command structure. -/
def render_colored_background (_state : RenderState) (_scene : Scene)
    (_frame : SwapChainFrame) (encoder : CommandEncoder) : CommandEncoder :=
  { encoder with commands := encoder.commands ++ [Command.beginRenderPass] }

/-- `render_contents`: delegates to `render_colored_background`. -/
def render_contents (state : RenderState) (scene : Scene)
    (frame : SwapChainFrame) (encoder : CommandEncoder) : CommandEncoder :=
  render_colored_background state scene frame encoder

/-- Observable outcome of one `render` call. `result = none` models the
`panic!("Out of memory!")` abnormal termination (no `RenderResult` is
returned). `encoder_created` records whether `create_command_encoder` ran;
`recorded_passes` counts render passes recorded in the submitted encoder. -/
structure RenderStep where
  state : RenderState
  result : Option RenderResult
  encoder_created : Bool
  recorded_passes : Nat
deriving DecidableEq, Repr

/-- Number of render passes recorded in a command list. -/
def countPasses (cs : List Command) : Nat :=
  (cs.filter (fun c => c = Command.beginRenderPass)).length

/-- `render` from the source. The result of
`state.swapchain.get_current_frame()` is the oracle input `frame`:
- `Ok(frame)`: create a command encoder, record the contents, submit the
  finished buffer to the queue, return `RenderResult::Ok`;
- `Err(Timeout)`: return `RenderResult::TimedOut`;
- `Err(Outdated | Lost)`: return `RenderResult::RecreateSwapchain`;
- `Err(OutOfMemory)`: `panic!` (modelled as `result = none`). -/
def render (state : RenderState) (scene : Scene) (frame : AcqResult) :
    RenderStep :=
  match frame with
  | Except.ok frame =>
      let encoder : CommandEncoder := { commands := [] }
      let encoder := render_contents state scene frame encoder
      let state :=
        { state with
            queue := { submitted := state.queue.submitted ++ [encoder.commands] } }
      { state := state, result := some RenderResult.Ok, encoder_created := true,
        recorded_passes := countPasses encoder.commands }
  | Except.error e =>
      match e with
      | SwapChainError.Timeout =>
          { state := state, result := some RenderResult.TimedOut,
            encoder_created := false, recorded_passes := 0 }
      | SwapChainError.Outdated =>
          { state := state, result := some RenderResult.RecreateSwapchain,
            encoder_created := false, recorded_passes := 0 }
      | SwapChainError.Lost =>
          { state := state, result := some RenderResult.RecreateSwapchain,
            encoder_created := false, recorded_passes := 0 }
      | SwapChainError.OutOfMemory =>
          { state := state, result := none,
            encoder_created := false, recorded_passes := 0 }

/-- The spec's four-valued Frame Outcome vocabulary for one acquisition
attempt. -/
inductive FrameOutcome
  | Ready
  | NeedsRecreation
  | TimedOut
  | Fatal
deriving DecidableEq, Repr

/-- The Frame Outcome realised by a `render` step: `Ok` is `Ready`,
`RecreateSwapchain` is `NeedsRecreation`, `TimedOut` is `TimedOut`, and
the panic path is `Fatal`. -/
def stepOutcome (r : RenderStep) : FrameOutcome :=
  match r.result with
  | some RenderResult.Ok => FrameOutcome.Ready
  | some RenderResult.RecreateSwapchain => FrameOutcome.NeedsRecreation
  | some RenderResult.TimedOut => FrameOutcome.TimedOut
  | none => FrameOutcome.Fatal

/-- winit `ControlFlow`, as the program uses it: the default polling mode
and `Exit`. -/
inductive ControlFlow
  | Poll
  | Exit
deriving DecidableEq, Repr

/-- The winit events the handler matches on. `WindowResized` carries the
new physical size the platform has already applied to the window;
`RedrawRequested` carries the acquisition oracle for the
`get_current_frame` call made inside `render`; `Other` stands for every
event the handler ignores with `_ => {}`. -/
inductive Event
  | WindowResized (size : PhysicalSize)
  | CloseRequested
  | RedrawRequested (acq : AcqResult)
  | MainEventsCleared
  | Other

/-- State of the driver loop: the moved-in `RenderState` and `Scene`, the
`control_flow` cell, and instrumentation counters for the externally
visible calls: `acquisitions` counts `get_current_frame` calls (one per
`render` call), `recreations` counts `recreate_swapchain` calls,
`redraw_requests` counts `window.request_redraw()` calls,
`timeouts_reported` counts the `eprintln!` timeout reports, and `panicked`
records that the out-of-memory `panic!` fired. -/
structure LoopState where
  state : RenderState
  scene : Scene
  control_flow : ControlFlow
  acquisitions : Nat
  recreations : Nat
  redraw_requests : Nat
  timeouts_reported : Nat
  panicked : Bool
deriving Repr

/-- The body of the closure passed to `event_loop.run` in `run`:
- `WindowEvent::Resized(_)`: call `state.recreate_swapchain()`;
- `WindowEvent::CloseRequested`: set `*control_flow = ControlFlow::Exit`;
- `RedrawRequested`: call `render` and dispatch on its `RenderResult`
  (`Ok` does nothing further, `RecreateSwapchain` calls
  `state.recreate_swapchain()`, `TimedOut` reports to stderr);
- `MainEventsCleared`: call `window.request_redraw()`;
- anything else: ignored. -/
def handle_event (ls : LoopState) (ev : Event) : LoopState :=
  match ev with
  | Event.WindowResized size =>
      let st := set_window_size ls.state size
      { ls with state := st.recreate_swapchain,
                recreations := ls.recreations + 1 }
  | Event.CloseRequested =>
      { ls with control_flow := ControlFlow.Exit }
  | Event.RedrawRequested acq =>
      let step := render ls.state ls.scene acq
      let ls := { ls with acquisitions := ls.acquisitions + 1 }
      match step.result with
      | some RenderResult.Ok => { ls with state := step.state }
      | some RenderResult.RecreateSwapchain =>
          { ls with state := step.state.recreate_swapchain,
                    recreations := ls.recreations + 1 }
      | some RenderResult.TimedOut =>
          { ls with state := step.state,
                    timeouts_reported := ls.timeouts_reported + 1 }
      | none => { ls with state := step.state, panicked := true }
  | Event.MainEventsCleared =>
      { ls with redraw_requests := ls.redraw_requests + 1 }
  | Event.Other => ls

/-- The winit event loop driving the handler over a finite event trace:
dispatch stops when `ControlFlow::Exit` has been set (winit's contract for
`Exit`: the loop terminates and delivers no further events to the handler)
or when the handler panicked (process abort). -/
def run_events (ls : LoopState) : List Event → LoopState
  | [] => ls
  | ev :: rest =>
      if ls.panicked then ls
      else if ls.control_flow = ControlFlow.Exit then ls
      else run_events (handle_event ls ev) rest

/-- Modelled from the spec: the behavior of wgpu's
`SwapChain::get_current_frame` on a degenerate target is outside this
repository (it lives in the wgpu crate). The spec states that for a target
whose descriptor width or height is zero, acquisition reports a
stale/outdated or lost target, or times out — never a successful frame. -/
def degenerate_acquire_model (descriptor : SwapChainDescriptor)
    (acq : AcqResult) : Prop :=
  (descriptor.width = 0 ∨ descriptor.height = 0) →
    acq = Except.error SwapChainError.Outdated ∨
    acq = Except.error SwapChainError.Lost ∨
    acq = Except.error SwapChainError.Timeout

/-- A concrete descriptor as built by `RenderState::new` for a 1280×720
window (format code arbitrary, as the preferred format is opaque). -/
def exampleDescriptor : SwapChainDescriptor :=
  { usage := RENDER_ATTACHMENT, format := 27, width := 1280, height := 720,
    present_mode := PresentMode.Fifo }

/-- A concrete render state over a 1280×720 window. -/
def exampleState : RenderState :=
  { window := { inner_size := { width := 1280, height := 720 } },
    queue := { submitted := [] },
    swapchain_descriptor := exampleDescriptor,
    swapchain := { descriptor := exampleDescriptor } }

/-- A concrete render state whose window and descriptor have zero area. -/
def zeroState : RenderState :=
  { window := { inner_size := { width := 0, height := 0 } },
    queue := { submitted := [] },
    swapchain_descriptor := { exampleDescriptor with width := 0, height := 0 },
    swapchain :=
      { descriptor := { exampleDescriptor with width := 0, height := 0 } } }

/-- A concrete acquired frame. -/
def exampleFrame : SwapChainFrame := { output := { view := () } }

/-- A concrete driver-loop state at the start of the loop. -/
def exampleLoopState : LoopState :=
  { state := exampleState, scene := {}, control_flow := ControlFlow.Poll,
    acquisitions := 0, recreations := 0, redraw_requests := 0,
    timeouts_reported := 0, panicked := false }

/-- Helper: once the loop has stopped (handler panicked, or `ControlFlow`
set to `Exit`), no further events are dispatched: `run_events` is the
identity on any remaining trace. -/
theorem run_events_stop (ls : LoopState) (l : List Event)
    (h : ls.panicked = true ∨ ls.control_flow = ControlFlow.Exit) :
    run_events ls l = ls := by
  cases l with
  | nil => rfl
  | cons e rest =>
      rcases h with h | h
      · simp [run_events, h]
      · simp [run_events, h]

/-- Claim C1: `render`, handling `get_current_frame`, classifies the
platform result exactly as: success is `Ready`, an outdated target or a
lost surface is `NeedsRecreation`, a timeout is `TimedOut`, and
out-of-memory is `Fatal` (the panic path); the five cases are exhaustive
over the platform result type, so no result is classified any other way. -/
theorem render_classification (s : RenderState) (sc : Scene) :
    (∀ f, stepOutcome (render s sc (Except.ok f)) = FrameOutcome.Ready) ∧
    stepOutcome (render s sc (Except.error SwapChainError.Outdated))
      = FrameOutcome.NeedsRecreation ∧
    stepOutcome (render s sc (Except.error SwapChainError.Lost))
      = FrameOutcome.NeedsRecreation ∧
    stepOutcome (render s sc (Except.error SwapChainError.Timeout))
      = FrameOutcome.TimedOut ∧
    stepOutcome (render s sc (Except.error SwapChainError.OutOfMemory))
      = FrameOutcome.Fatal :=
  ⟨fun _ => rfl, rfl, rfl, rfl, rfl⟩

/-- Claim C2: on a redraw event the driver dispatches on the frame outcome
exactly as specified: `NeedsRecreation` (Outdated or Lost) triggers one
`recreate_swapchain` call and submits nothing; `TimedOut` reports the
condition, recreates nothing and submits nothing; and the queue receives a
submission exactly when the outcome is `Ready` — the only path producing
output. -/
theorem driver_redraw_dispatch (ls : LoopState) :
    ((handle_event ls
        (Event.RedrawRequested (Except.error SwapChainError.Outdated))).recreations
        = ls.recreations + 1 ∧
     (handle_event ls
        (Event.RedrawRequested (Except.error SwapChainError.Lost))).recreations
        = ls.recreations + 1) ∧
    ((handle_event ls
        (Event.RedrawRequested (Except.error SwapChainError.Timeout))).recreations
        = ls.recreations ∧
     (handle_event ls
        (Event.RedrawRequested (Except.error SwapChainError.Timeout))).timeouts_reported
        = ls.timeouts_reported + 1) ∧
    (∀ acq, (handle_event ls (Event.RedrawRequested acq)).state.queue.submitted =
        (if stepOutcome (render ls.state ls.scene acq) = FrameOutcome.Ready
         then ls.state.queue.submitted ++ [[Command.beginRenderPass]]
         else ls.state.queue.submitted)) := by
  refine ⟨⟨rfl, rfl⟩, ⟨rfl, rfl⟩, ?_⟩
  intro acq
  cases acq with
  | ok f => rfl
  | error e => cases e <;> rfl

/-- Claim C3: of the four frame outcomes only `Fatal` (out-of-memory)
terminates the process: on `Ready`, `NeedsRecreation` and `TimedOut` the
handler leaves `panicked` and `control_flow` untouched, so the loop
continues; on out-of-memory the handler panicks. -/
theorem only_fatal_terminates (ls : LoopState) :
    (∀ f, (handle_event ls (Event.RedrawRequested (Except.ok f))).panicked
        = ls.panicked ∧
      (handle_event ls (Event.RedrawRequested (Except.ok f))).control_flow
        = ls.control_flow) ∧
    (handle_event ls
      (Event.RedrawRequested (Except.error SwapChainError.Outdated))).panicked
      = ls.panicked ∧
    (handle_event ls
      (Event.RedrawRequested (Except.error SwapChainError.Outdated))).control_flow
      = ls.control_flow ∧
    (handle_event ls
      (Event.RedrawRequested (Except.error SwapChainError.Lost))).panicked
      = ls.panicked ∧
    (handle_event ls
      (Event.RedrawRequested (Except.error SwapChainError.Lost))).control_flow
      = ls.control_flow ∧
    (handle_event ls
      (Event.RedrawRequested (Except.error SwapChainError.Timeout))).panicked
      = ls.panicked ∧
    (handle_event ls
      (Event.RedrawRequested (Except.error SwapChainError.Timeout))).control_flow
      = ls.control_flow ∧
    (handle_event ls
      (Event.RedrawRequested (Except.error SwapChainError.OutOfMemory))).panicked
      = true :=
  ⟨fun _ => ⟨rfl, rfl⟩, rfl, rfl, rfl, rfl, rfl, rfl, rfl⟩

/-- Claim C4: once a close-request is processed the loop performs no
further acquisition: for every event trace, the acquisitions counted over
the whole run equal those counted before the close-request, whatever
events (including pending redraws) follow it. -/
theorem close_request_stops_acquisitions (ls : LoopState)
    (pre post : List Event) :
    (run_events ls (pre ++ Event.CloseRequested :: post)).acquisitions =
      (run_events ls pre).acquisitions := by
  induction pre generalizing ls with
  | nil =>
      by_cases hp : ls.panicked = true
      · simp [run_events, hp]
      · by_cases he : ls.control_flow = ControlFlow.Exit
        · simp [run_events, hp, he]
        · have h1 : run_events ls ([] ++ Event.CloseRequested :: post)
              = run_events (handle_event ls Event.CloseRequested) post := by
            simp [run_events, hp, he]
          have h2 : run_events (handle_event ls Event.CloseRequested) post
              = handle_event ls Event.CloseRequested :=
            run_events_stop _ _ (Or.inr rfl)
          rw [h1, h2]
          rfl
  | cons e pre ih =>
      by_cases hp : ls.panicked = true
      · simp [run_events, hp]
      · by_cases he : ls.control_flow = ControlFlow.Exit
        · simp [run_events, hp, he]
        · simp only [List.cons_append, run_events, hp, he, if_false, if_neg]
          exact ih (handle_event ls e)

/-- Claim C5: when the descriptor's width or height is zero, acquisition
never yields `Ready`: under the spec's model of wgpu's behavior for a
degenerate target, the outcome is `NeedsRecreation` or `TimedOut`. -/
theorem degenerate_never_ready (s : RenderState) (sc : Scene)
    (acq : AcqResult)
    (hzero : s.swapchain_descriptor.width = 0 ∨
      s.swapchain_descriptor.height = 0)
    (hmodel : degenerate_acquire_model s.swapchain_descriptor acq) :
    stepOutcome (render s sc acq) ≠ FrameOutcome.Ready ∧
    (stepOutcome (render s sc acq) = FrameOutcome.NeedsRecreation ∨
     stepOutcome (render s sc acq) = FrameOutcome.TimedOut) := by
  rcases hmodel hzero with h | h | h <;> subst h
  · exact ⟨by simp [render, stepOutcome], Or.inl rfl⟩
  · exact ⟨by simp [render, stepOutcome], Or.inl rfl⟩
  · exact ⟨by simp [render, stepOutcome], Or.inr rfl⟩

/-- Witness for C5 at a concrete zero-area state with an `Outdated`
platform result. -/
theorem degenerate_never_ready_witness :
    stepOutcome (render zeroState {} (Except.error SwapChainError.Outdated))
      ≠ FrameOutcome.Ready ∧
    (stepOutcome (render zeroState {} (Except.error SwapChainError.Outdated))
        = FrameOutcome.NeedsRecreation ∨
     stepOutcome (render zeroState {} (Except.error SwapChainError.Outdated))
        = FrameOutcome.TimedOut) :=
  degenerate_never_ready zeroState {} (Except.error SwapChainError.Outdated)
    (Or.inl rfl) (fun _ => Or.inl rfl)

/-- Claim C6: recreation samples the window size at call time: after
`recreate_swapchain` the descriptor's width/height equal the window's
physical size as read in that call, a later window-size change leaves the
descriptor untouched until the next recreation, and a resize event in the
driver loop leaves the descriptor at exactly that event's size. -/
theorem recreate_uses_size_at_call (s : RenderState) (ls : LoopState) :
    (s.recreate_swapchain).swapchain_descriptor.width
      = s.window.inner_size.width ∧
    (s.recreate_swapchain).swapchain_descriptor.height
      = s.window.inner_size.height ∧
    (∀ size, (set_window_size s.recreate_swapchain size).swapchain_descriptor
        = (s.recreate_swapchain).swapchain_descriptor) ∧
    (∀ size,
      (handle_event ls (Event.WindowResized size)).state.swapchain_descriptor.width
        = size.width ∧
      (handle_event ls (Event.WindowResized size)).state.swapchain_descriptor.height
        = size.height) :=
  ⟨rfl, rfl, fun _ => rfl, fun _ => ⟨rfl, rfl⟩⟩

/-- Claim C7: `recreate_swapchain` is idempotent at a fixed window size:
a second consecutive call (no intervening resize) yields the same
descriptor and a target with an identical descriptor. -/
theorem recreate_idempotent (s : RenderState) :
    (s.recreate_swapchain.recreate_swapchain).swapchain_descriptor
      = (s.recreate_swapchain).swapchain_descriptor ∧
    (s.recreate_swapchain.recreate_swapchain).swapchain
      = (s.recreate_swapchain).swapchain :=
  ⟨rfl, rfl⟩

/-- Claim C8: after context creation only the descriptor's width/height
and the live target are ever replaced: `recreate_swapchain` preserves the
descriptor's format, usage and present mode (and the window and queue),
and `render` never touches the descriptor, the target or the window. -/
theorem descriptor_fixed_fields (s : RenderState) (sc : Scene) :
    ((s.recreate_swapchain).swapchain_descriptor.format
        = s.swapchain_descriptor.format ∧
     (s.recreate_swapchain).swapchain_descriptor.usage
        = s.swapchain_descriptor.usage ∧
     (s.recreate_swapchain).swapchain_descriptor.present_mode
        = s.swapchain_descriptor.present_mode ∧
     (s.recreate_swapchain).window = s.window ∧
     (s.recreate_swapchain).queue = s.queue) ∧
    (∀ acq, (render s sc acq).state.swapchain_descriptor
        = s.swapchain_descriptor ∧
      (render s sc acq).state.swapchain = s.swapchain ∧
      (render s sc acq).state.window = s.window) := by
  refine ⟨⟨rfl, rfl, rfl, rfl, rfl⟩, ?_⟩
  intro acq
  cases acq with
  | ok f => exact ⟨rfl, rfl, rfl⟩
  | error e => cases e <;> exact ⟨rfl, rfl, rfl⟩

/-- Claim C9: exactly one render pass is recorded when the outcome is
`Ready`, and zero render passes are recorded otherwise. -/
theorem render_pass_count (s : RenderState) (sc : Scene) (acq : AcqResult) :
    (render s sc acq).recorded_passes =
      (if stepOutcome (render s sc acq) = FrameOutcome.Ready
       then 1 else 0) := by
  cases acq with
  | ok f => rfl
  | error e => cases e <;> rfl

/-- Claim C10: a command encoder is created and one command buffer is
submitted exactly when acquisition succeeds; on every acquisition error
`render` creates no encoder, records no passes, and returns the state
completely unchanged, producing only the classified result. -/
theorem render_effects_only_on_success (s : RenderState) (sc : Scene) :
    (∀ f, (render s sc (Except.ok f)).encoder_created = true ∧
      (render s sc (Except.ok f)).state.queue.submitted
        = s.queue.submitted ++ [[Command.beginRenderPass]] ∧
      (render s sc (Except.ok f)).result = some RenderResult.Ok) ∧
    (∀ e, (render s sc (Except.error e)).encoder_created = false ∧
      (render s sc (Except.error e)).recorded_passes = 0 ∧
      (render s sc (Except.error e)).state = s) := by
  refine ⟨fun f => ⟨rfl, rfl, rfl⟩, fun e => ?_⟩
  cases e <;> exact ⟨rfl, rfl, rfl⟩

end WgpuTemplate
